import Mathlib

/-!
Verification of the cybersecurity MDP decision engine.

The development embeds, as executable Lean definitions over exact rational
arithmetic, the components of the repository:

* `CyberMDP` — the `MarkovDecisionProcess` class of
  `markov_decision_process/markov_process.py`: the `State`/`Action`
  enumerations, the hand-authored transition and reward tables, value
  iteration (`_compute_optimal_policy`), evidence classification
  (`determine_current_state`), decision analysis (`analyze_event`) and
  confidence scoring (`_calculate_confidence`).
* `BayesIDS` — the `BayesianIDS.analyze_login_attempt` scorer of
  `bayesian_analysis/bayesian_ids.py`.
* `PyStore` — the `DataStorage` append-log of `data_storage.py`.

Python `float` arithmetic is modelled by `ℚ`; every numeric constant in the
source is an exact decimal, so the rational computation mirrors the float
one. Python `dict` lookups with `.get(k, d)` become total lookups with a
default; a bare `d[k]` on an absent key (a `KeyError`) is modelled with
`Except` in the generalized solver `computeOptimalPolicyG`.
-/

attribute [local semireducible] Rat.mul Rat.add Rat.sub Rat.inv

/-- Python built-in `max(a, b)`: the second argument replaces the first only
when strictly greater. -/
def pyMax2 (a b : ℚ) : ℚ := if a < b then b else a

/-- Python built-in `min(a, b)`: the first argument wins ties. -/
def pyMin2 (a b : ℚ) : ℚ := if a ≤ b then a else b

/-- Python built-in `abs` on a rational value. -/
def pyAbs (x : ℚ) : ℚ := if x < 0 then -x else x

/-- Python `s.startswith(pre)`: character-list prefix test. -/
def pyStartswith (s pre : String) : Bool := pre.data.isPrefixOf s.data

namespace CyberMDP

/-- The `State` enum of `markov_process.py` (lines 13–18). -/
inductive State
  | NO_THREAT
  | SUSPICIOUS
  | ATTACK
  | COMPROMISED
deriving DecidableEq, Fintype, Repr

/-- The `Action` enum of `markov_process.py` (lines 21–26). -/
inductive Action
  | MONITOR
  | INVESTIGATE
  | MITIGATE
  | RECOVER
deriving DecidableEq, Fintype, Repr

/-- Model of `.name` on a `State` member, as Python's `Enum.name`. -/
def State.name : State → String
  | .NO_THREAT => "NO_THREAT"
  | .SUSPICIOUS => "SUSPICIOUS"
  | .ATTACK => "ATTACK"
  | .COMPROMISED => "COMPROMISED"

/-- Model of `.name` on an `Action` member, as Python's `Enum.name`. -/
def Action.name : Action → String
  | .MONITOR => "MONITOR"
  | .INVESTIGATE => "INVESTIGATE"
  | .MITIGATE => "MITIGATE"
  | .RECOVER => "RECOVER"

/-- Iteration order of `for state in State` (Python enum definition order). -/
def allStates : List State := [.NO_THREAT, .SUSPICIOUS, .ATTACK, .COMPROMISED]

/-- Iteration order of `for action in Action` (Python enum definition order). -/
def allActions : List Action := [.MONITOR, .INVESTIGATE, .MITIGATE, .RECOVER]

/-- Model of `self.transition_probs[action][state]` — the inner Python dict
`{next_state: probability}`, as an association list in insertion order
(`markov_process.py` lines 47–72). Every `(action, state)` pair is present
in the hand-authored table, so this lookup is total. -/
def transition_probs : Action → State → List (State × ℚ)
  | .MONITOR, .NO_THREAT => [(.NO_THREAT, 95/100), (.SUSPICIOUS, 5/100)]
  | .MONITOR, .SUSPICIOUS => [(.NO_THREAT, 1/10), (.SUSPICIOUS, 8/10), (.ATTACK, 1/10)]
  | .MONITOR, .ATTACK => [(.ATTACK, 8/10), (.COMPROMISED, 2/10)]
  | .MONITOR, .COMPROMISED => [(.COMPROMISED, 1)]
  | .INVESTIGATE, .NO_THREAT => [(.NO_THREAT, 98/100), (.SUSPICIOUS, 2/100)]
  | .INVESTIGATE, .SUSPICIOUS => [(.NO_THREAT, 4/10), (.SUSPICIOUS, 5/10), (.ATTACK, 1/10)]
  | .INVESTIGATE, .ATTACK => [(.SUSPICIOUS, 2/10), (.ATTACK, 7/10), (.COMPROMISED, 1/10)]
  | .INVESTIGATE, .COMPROMISED => [(.ATTACK, 1/10), (.COMPROMISED, 9/10)]
  | .MITIGATE, .NO_THREAT => [(.NO_THREAT, 99/100), (.SUSPICIOUS, 1/100)]
  | .MITIGATE, .SUSPICIOUS => [(.NO_THREAT, 7/10), (.SUSPICIOUS, 3/10)]
  | .MITIGATE, .ATTACK => [(.NO_THREAT, 2/10), (.SUSPICIOUS, 5/10), (.ATTACK, 3/10)]
  | .MITIGATE, .COMPROMISED => [(.ATTACK, 3/10), (.COMPROMISED, 7/10)]
  | .RECOVER, .NO_THREAT => [(.NO_THREAT, 95/100), (.SUSPICIOUS, 5/100)]
  | .RECOVER, .SUSPICIOUS => [(.NO_THREAT, 5/10), (.SUSPICIOUS, 5/10)]
  | .RECOVER, .ATTACK => [(.NO_THREAT, 4/10), (.SUSPICIOUS, 4/10), (.ATTACK, 2/10)]
  | .RECOVER, .COMPROMISED => [(.NO_THREAT, 5/10), (.SUSPICIOUS, 3/10), (.ATTACK, 2/10)]

/-- Model of `self.rewards[state][action]` (`markov_process.py` lines 76–101). -/
def rewards : State → Action → ℚ
  | .NO_THREAT, .MONITOR => 10
  | .NO_THREAT, .INVESTIGATE => -5
  | .NO_THREAT, .MITIGATE => -20
  | .NO_THREAT, .RECOVER => -50
  | .SUSPICIOUS, .MONITOR => 0
  | .SUSPICIOUS, .INVESTIGATE => 15
  | .SUSPICIOUS, .MITIGATE => -5
  | .SUSPICIOUS, .RECOVER => -30
  | .ATTACK, .MONITOR => -30
  | .ATTACK, .INVESTIGATE => 5
  | .ATTACK, .MITIGATE => 25
  | .ATTACK, .RECOVER => 5
  | .COMPROMISED, .MONITOR => -100
  | .COMPROMISED, .INVESTIGATE => -20
  | .COMPROMISED, .MITIGATE => 5
  | .COMPROMISED, .RECOVER => 50

/-- Constant `self.gamma = 0.9` (`markov_process.py` line 104). -/
def gamma : ℚ := 9/10

/-- Default `epsilon=0.01` of `_compute_optimal_policy`. -/
def epsilon : ℚ := 1/100

/-- Default `max_iterations=100` of `_compute_optimal_policy`. -/
def max_iterations : Nat := 100

/-- Python `inner_dict.get(next_state, 0)` on the transition inner dict. -/
def dictGet (d : List (State × ℚ)) (s : State) : ℚ :=
  match d.find? (fun p => decide (p.1 = s)) with
  | some p => p.2
  | none => 0

/-- The utility dict `{state: value}`, one rational per state. -/
structure UtilVec where
  no_threat : ℚ
  suspicious : ℚ
  attack : ℚ
  compromised : ℚ
deriving DecidableEq, Repr

/-- Lookup `utilities[state]` in the utility dict. -/
def UtilVec.get (U : UtilVec) : State → ℚ
  | .NO_THREAT => U.no_threat
  | .SUSPICIOUS => U.suspicious
  | .ATTACK => U.attack
  | .COMPROMISED => U.compromised

/-- The inner loop of `_compute_optimal_policy` (lines 139–151), also
repeated verbatim in the policy pass (lines 171–177), in `analyze_event`
(lines 246–251) and in `_calculate_confidence` (lines 290–300):
`expected_utility = Σ_{s'} P(s'|s,a)·(R(s,a) + γ·U(s'))`, summing only the
next states with `prob > 0`, with absent next states read as probability 0
via `.get(next_state, 0)`. -/
def expected_utility (U : UtilVec) (s : State) (a : Action) : ℚ :=
  allStates.foldl
    (fun acc s' =>
      let prob := dictGet (transition_probs a s) s'
      if 0 < prob then acc + prob * (rewards s a + gamma * U.get s') else acc)
    0

/-- Python `max(action_values, key=action_values.get)`: the dict keys are
visited in `Action` insertion order and the first key with the maximal
value wins (later keys replace the incumbent only on strictly greater
value). -/
def pyMaxKey (f : Action → ℚ) : Action → List Action → Action
  | best, [] => best
  | best, a :: rest => pyMaxKey f (if f best < f a then a else best) rest

/-- Model of `best_action = max(action_values, key=action_values.get)` where
`action_values[a] = expected_utility U s a` is built by `for action in
Action`. -/
def best_action (U : UtilVec) (s : State) : Action :=
  match allActions with
  | [] => .MONITOR
  | a :: rest => pyMaxKey (expected_utility U s) a rest

/-- One sweep of the value-iteration loop body (lines 133–156):
`utilities[state] = action_values[best_action]` for every state, computed
from the copied `prev_utilities`. -/
def sweep (U : UtilVec) : UtilVec where
  no_threat := expected_utility U .NO_THREAT (best_action U .NO_THREAT)
  suspicious := expected_utility U .SUSPICIOUS (best_action U .SUSPICIOUS)
  attack := expected_utility U .ATTACK (best_action U .ATTACK)
  compromised := expected_utility U .COMPROMISED (best_action U .COMPROMISED)

/-- Model of `delta = max(delta, abs(utilities[state] - prev_utilities[state]))`
accumulated over the state loop starting from `delta = 0` (lines 131, 159). -/
def sweepDelta (U U' : UtilVec) : ℚ :=
  allStates.foldl (fun d s => pyMax2 d (pyAbs (U'.get s - U.get s))) 0

/-- The `for i in range(max_iterations)` loop of `_compute_optimal_policy`
(lines 129–163): sweep, then `break` as soon as `delta < epsilon`. -/
def value_iteration : Nat → UtilVec → UtilVec
  | 0, U => U
  | Nat.succ n, U =>
    let U' := sweep U
    if sweepDelta U U' < epsilon then U' else value_iteration n U'

/-- Value of `self.utilities` after `__init__`: the final utilities of
`_compute_optimal_policy(max_iterations=100, epsilon=0.01)` started from
the all-zero dict (line 126, stored at line 183). -/
def utilities : UtilVec := value_iteration max_iterations ⟨0, 0, 0, 0⟩

/-- Value of `self.optimal_policy`: the final pass of `_compute_optimal_policy`
(lines 166–181) recomputes `action_values` from the final utilities and
takes `max(action_values, key=action_values.get)` per state. -/
def optimal_policy (s : State) : Action := best_action utilities s

/-- The `event_data` dict passed to `determine_current_state` and
`analyze_event`: each key the code reads, `none` when the key is absent. -/
structure EventData where
  source_ip : Option String
  packet_count : Option Int
  protocol : Option String
  username : Option String
  successful : Option Bool
  timestamp : Option ℚ
deriving DecidableEq, Repr

/-- Model of `determine_current_state` (`markov_process.py` lines 186–226):
network evidence when both `protocol` and `packet_count` keys exist, login
evidence when both `username` and `successful` keys exist, otherwise the
`State.SUSPICIOUS` default of line 226. -/
def determine_current_state (event_data : EventData) : State :=
  if event_data.protocol.isSome ∧ event_data.packet_count.isSome then
    let source_ip := event_data.source_ip.getD ""
    let packet_count := event_data.packet_count.getD 0
    let protocol := event_data.protocol.getD ""
    if pyStartswith source_ip "192.168." = false ∧ 500 < packet_count then
      if protocol = "UDP" ∧ 800 < packet_count then State.ATTACK
      else State.SUSPICIOUS
    else if 900 < packet_count then State.SUSPICIOUS
    else State.NO_THREAT
  else if event_data.username.isSome ∧ event_data.successful.isSome then
    let username := event_data.username.getD ""
    let successful := event_data.successful.getD true
    if username = "admin" ∧ successful = false then State.SUSPICIOUS
    else State.NO_THREAT
  else State.SUSPICIOUS

/-- Python `max(iterable, default=0)` over the generator of
`_calculate_confidence` line 308: 0 on an empty sequence, otherwise the
left fold of two-argument `max`. -/
def pyMaxD (l : List ℚ) : ℚ :=
  match l with
  | [] => 0
  | x :: xs => xs.foldl pyMax2 x

/-- Model of `_calculate_confidence` (`markov_process.py` lines 270–323): expected
utility of every action under `self.utilities`, `best_utility` of the given
action, `second_best` over the remaining actions, `min(0.5 + advantage/100,
1.0)`, overridden to 0.5 when all utilities are within `1e-6` of
`best_utility`. -/
def calculate_confidence (state : State) (action : Action) : ℚ :=
  let action_utilities : Action → ℚ := fun a => expected_utility utilities state a
  let best_utility := action_utilities action
  let second_best :=
    pyMaxD ((allActions.filter (fun a => decide (a ≠ action))).map action_utilities)
  let advantage := best_utility - second_best
  let confidence := pyMin2 (1/2 + advantage / 100) 1
  if allActions.all (fun a => decide (pyAbs (action_utilities a - best_utility) < 1/1000000))
  then 1/2
  else confidence

/-- Model of `_get_action_description` (`markov_process.py` lines 325–357). -/
def get_action_description (action : Action) (state : State) : String :=
  match action with
  | .MONITOR => "Continue monitoring, no significant threat detected."
  | .INVESTIGATE =>
    if state = State.SUSPICIOUS then
      "Investigate suspicious activity for potential threats."
    else "Further investigation recommended as a precautionary measure."
  | .MITIGATE =>
    if state = State.ATTACK then
      "Mitigate ongoing attack by implementing security controls."
    else "Apply preventative security measures to address potential threat."
  | .RECOVER =>
    if state = State.COMPROMISED then
      "Initiate recovery procedures to restore system integrity."
    else "Consider system restoration as a precautionary measure."

/-- The `analysis_result` dict built by `analyze_event` (lines 254–261).
`current_state` and `recommended_action` hold the `.name` strings the code
stores. -/
structure DecisionRecord where
  timestamp : ℚ
  event_type : String
  current_state : String
  recommended_action : String
  expected_utility : ℚ
  confidence : ℚ
deriving DecidableEq, Repr

end CyberMDP

namespace PyStore

/-- Model of `DataStorage.data`: a Python dict from category strings to lists;
`none` models an absent key. -/
def Storage (α : Type) : Type := String → Option (List α)

/-- The four empty categories created by `DataStorage.__init__`
(`data_storage.py` lines 5–12). -/
def initStorage (α : Type) : Storage α := fun c =>
  if c = "login_analysis" ∨ c = "network_analysis" ∨
     c = "service_impact_analysis" ∨ c = "mdp_decision" then some [] else none

/-- Model of `DataStorage.store` (`data_storage.py` lines 14–19): append when the
category exists, otherwise create a fresh one-element list — in both cases
the new list is the old contents (empty when absent) with the record at the
end. -/
def store {α : Type} (d : Storage α) (category : String) (x : α) : Storage α :=
  fun c => if c = category then some ((d category).getD [] ++ [x]) else d c

/-- Model of `DataStorage.retrieve` (`data_storage.py` lines 21–28). `limit = none`
models Python `limit=None`; `if limit:` is false for both `None` and `0`,
returning the whole list, and otherwise Python's `l[-limit:]` keeps the
last `limit` elements. -/
def retrieve {α : Type} (d : Storage α) (category : String) (limit : Option Nat) : List α :=
  match d category with
  | none => []
  | some items =>
    match limit with
    | none => items
    | some n => if n = 0 then items else items.drop (items.length - n)

/-- Model of `DataStorage.retrieve_latest` (`data_storage.py` lines 30–35):
`retrieve(category, 1)`, then `items[0]` when non-empty else `None`. -/
def retrieve_latest {α : Type} (d : Storage α) (category : String) : Option α :=
  match retrieve d category (some 1) with
  | [] => none
  | x :: _ => some x

end PyStore

namespace CyberMDP

/-- Model of `analyze_event` (`markov_process.py` lines 228–268): classify the
event, look up the policy action, recompute the expected utility with the
stored utilities, build `analysis_result`, append it to the
`'mdp_decision'` category of the data storage, and return
`(optimal_action.name, description)`. `now` stands for the `time.time()`
fallback used when `event_data` carries no `'timestamp'` key. -/
def analyze_event (storage : PyStore.Storage DecisionRecord) (event_type : String)
    (event_data : EventData) (now : ℚ) :
    (String × String) × PyStore.Storage DecisionRecord :=
  let current_state := determine_current_state event_data
  let optimal_action := optimal_policy current_state
  let expected := expected_utility utilities current_state optimal_action
  let analysis_result : DecisionRecord :=
    { timestamp := event_data.timestamp.getD now
      event_type := event_type
      current_state := current_state.name
      recommended_action := optimal_action.name
      expected_utility := expected
      confidence := calculate_confidence current_state optimal_action }
  let storage' := PyStore.store storage "mdp_decision" analysis_result
  ((optimal_action.name, get_action_description optimal_action current_state), storage')

/-! Generalized solver.

`_compute_optimal_policy` reads `self.transition_probs[action][state]` with
a bare double subscript: on a table missing that `(action, state)` key
Python raises `KeyError`. The repository defines no `ConfigurationError`
class anywhere. To examine solve-time behaviour on arbitrary (possibly
incomplete) tables, the solver is restated below over an explicit table
parameter, with `Except` capturing the raised exception; `PyError.keyError`
is Python's `KeyError`, and `PyError.configurationError` stands for the
`ConfigurationError` the specification postulates, so that statements about
it can be expressed. -/

/-- The exception vocabulary relevant to solve time: Python's `KeyError`
and the specification's postulated `ConfigurationError`. -/
inductive PyError
  | keyError
  | configurationError
deriving DecidableEq, Repr

/-- A transition table in which an `(action, state)` pair may be absent
(`none`), as a Python dict-of-dicts may lack a key. -/
def TransTable : Type := Action → State → Option (List (State × ℚ))

/-- The full hand-authored table of `__init__`, every pair present. -/
def fullTable : TransTable := fun a s => some (transition_probs a s)

/-- Generalization of `expected_utility` over an explicit table: the bare subscript
`self.transition_probs[action][state]` raises `KeyError` when the pair is
absent; otherwise the same positive-probability sum as `expected_utility`. -/
def expectedUtilityG (T : TransTable) (U : UtilVec) (s : State) (a : Action) :
    Except PyError ℚ :=
  match T a s with
  | none => .error .keyError
  | some d =>
    .ok (allStates.foldl
      (fun acc s' =>
        let prob := dictGet d s'
        if 0 < prob then acc + prob * (rewards s a + gamma * U.get s') else acc)
      0)

/-- The `action_values` dict of `_compute_optimal_policy`, built by
`for action in Action` over the given action list. -/
def actionValuesG (T : TransTable) (U : UtilVec) (s : State) :
    List Action → Except PyError (List (Action × ℚ))
  | [] => .ok []
  | a :: rest =>
    match expectedUtilityG T U s a with
    | .error e => .error e
    | .ok v =>
      match actionValuesG T U s rest with
      | .error e => .error e
      | .ok tail => .ok ((a, v) :: tail)

/-- Model of `max(action_values, key=action_values.get)` over an association list:
first entry with the maximal value wins. -/
def pyMaxKeyPairs : (Action × ℚ) → List (Action × ℚ) → (Action × ℚ)
  | best, [] => best
  | best, p :: rest => pyMaxKeyPairs (if best.2 < p.2 then p else best) rest

/-- Update `utilities[state] = action_values[best_action]` for one state of
the sweep, over an explicit table. The `Action` enumeration is non-empty, so
the `[]` branch is unreachable. -/
def stateValueG (T : TransTable) (U : UtilVec) (s : State) : Except PyError ℚ :=
  match actionValuesG T U s allActions with
  | .error e => .error e
  | .ok [] => .ok 0
  | .ok (p :: rest) => .ok (pyMaxKeyPairs p rest).2

/-- One sweep of the value-iteration loop over an explicit table, visiting
states in `for state in State` order. -/
def sweepG (T : TransTable) (U : UtilVec) : Except PyError UtilVec :=
  match stateValueG T U .NO_THREAT with
  | .error e => .error e
  | .ok vNoThreat =>
    match stateValueG T U .SUSPICIOUS with
    | .error e => .error e
    | .ok vSuspicious =>
      match stateValueG T U .ATTACK with
      | .error e => .error e
      | .ok vAttack =>
        match stateValueG T U .COMPROMISED with
        | .error e => .error e
        | .ok vCompromised => .ok ⟨vNoThreat, vSuspicious, vAttack, vCompromised⟩

/-- The bounded value-iteration loop over an explicit table. -/
def valueIterationG (T : TransTable) : Nat → UtilVec → Except PyError UtilVec
  | 0, U => .ok U
  | Nat.succ n, U =>
    match sweepG T U with
    | .error e => .error e
    | .ok U' => if sweepDelta U U' < epsilon then .ok U' else valueIterationG T n U'

/-- Entry `optimal_policy[state]` of the final pass, over an explicit table. -/
def policyActionG (T : TransTable) (U : UtilVec) (s : State) : Except PyError Action :=
  match actionValuesG T U s allActions with
  | .error e => .error e
  | .ok [] => .ok .MONITOR
  | .ok (p :: rest) => .ok (pyMaxKeyPairs p rest).1

/-- The policy dict of `_compute_optimal_policy`, one action per state. -/
structure PolicyVec where
  no_threat : Action
  suspicious : Action
  attack : Action
  compromised : Action
deriving DecidableEq, Repr

/-- Model of `_compute_optimal_policy(max_iterations=100, epsilon=0.01)` over an
explicit table: value iteration from the all-zero utilities, then the
final policy pass. -/
def computeOptimalPolicyG (T : TransTable) : Except PyError (PolicyVec × UtilVec) :=
  match valueIterationG T max_iterations ⟨0, 0, 0, 0⟩ with
  | .error e => .error e
  | .ok U =>
    match policyActionG T U .NO_THREAT with
    | .error e => .error e
    | .ok pNoThreat =>
      match policyActionG T U .SUSPICIOUS with
      | .error e => .error e
      | .ok pSuspicious =>
        match policyActionG T U .ATTACK with
        | .error e => .error e
        | .ok pAttack =>
          match policyActionG T U .COMPROMISED with
          | .error e => .error e
          | .ok pCompromised => .ok (⟨pNoThreat, pSuspicious, pAttack, pCompromised⟩, U)

/-- A defective table: the hand-authored one with the
`(MONITOR, NO_THREAT)` transition distribution deleted. -/
def missingPairTable : TransTable := fun a s =>
  if a = Action.MONITOR ∧ s = State.NO_THREAT then none else some (transition_probs a s)

end CyberMDP

namespace BayesIDS

/-- The `login_data` dict read by `BayesianIDS.analyze_login_attempt`
(`bayesian_ids.py`): each key the code reads, `none` when absent. -/
structure LoginData where
  source_ip : Option String
  username : Option String
  successful : Option Bool
  timestamp : Option ℚ
deriving DecidableEq, Repr

/-- Constant `self.p_attack = 0.02` (`bayesian_ids.py` line 12). -/
def p_attack : ℚ := 2/100

/-- Constant `self.p_alert_given_attack = 0.90` (line 13). -/
def p_alert_given_attack : ℚ := 9/10

/-- Constant `self.p_alert_given_no_attack = 0.10` (line 14). -/
def p_alert_given_no_attack : ℚ := 1/10

/-- Model of `BayesianIDS.analyze_login_attempt` (`bayesian_ids.py` lines 16–54):
multiplicative prior adjustments (×1.5 for a `10.`-prefixed source,
×2 for username `admin`, ×3 for a failed attempt), a cap at 0.95,
the total probability of an alert, and the Bayes posterior
`P(attack | alert)` that the function returns. -/
def analyze_login_attempt (login_data : LoginData) : ℚ :=
  let adjusted₀ := p_attack
  let adjusted₁ :=
    if pyStartswith (login_data.source_ip.getD "") "10." then adjusted₀ * (3/2) else adjusted₀
  let adjusted₂ :=
    if login_data.username = some "admin" then adjusted₁ * 2 else adjusted₁
  let adjusted₃ :=
    if login_data.successful.getD true = false then adjusted₂ * 3 else adjusted₂
  let adjusted_p_attack := pyMin2 adjusted₃ (95/100)
  let p_alert := p_alert_given_attack * adjusted_p_attack +
    p_alert_given_no_attack * (1 - adjusted_p_attack)
  p_alert_given_attack * adjusted_p_attack / p_alert

end BayesIDS


namespace CyberMDP

set_option maxRecDepth 100000 in
/-- Exact value of the converged utility vector, computed once and
reused by the later evaluations. -/
theorem utilities_val :
    utilities =
      { no_threat := (311592495166159691736601455926391473487997729889590684139984039365247449117642767579947871127533490930058566642595227766159007221913421338986807468928542761 : ℚ) / 2951479051793528258560000000000000000000000000000000000000000000000000000000000000000000000000000000000000000000000000000000000000000000000000000000000000
        suspicious := (21792543523118651455137259140700150712678516551252383969018083669185547074781228758570414521249518482799500240219197717608811223264699165052470721537103831 : ℚ) / 184467440737095516160000000000000000000000000000000000000000000000000000000000000000000000000000000000000000000000000000000000000000000000000000000000000
        attack := (98203913950586878460048950888084051014926874400795237082737618088533003882992901369925206492011118530735493634934047414568177419887103293728707763032951317 : ℚ) / 737869762948382064640000000000000000000000000000000000000000000000000000000000000000000000000000000000000000000000000000000000000000000000000000000000000
        compromised := (226308335711627922321976907078830422401989180930498982525260012205688598201868723096230939155135255662898283072966966590044287358131421723979685244315578519 : ℚ) / 1475739525896764129280000000000000000000000000000000000000000000000000000000000000000000000000000000000000000000000000000000000000000000000000000000000000 } := by
  decide

/-- C1: with the hand-authored four-state/four-action transition and reward
tables, γ = 0.9, ε = 0.01 and 100 iterations, value iteration yields a
policy mapping `COMPROMISED` to `RECOVER` and `NO_THREAT` to `MONITOR`. -/
theorem C1_policy_compromised_recover_nothreat_monitor :
    optimal_policy State.COMPROMISED = Action.RECOVER ∧
    optimal_policy State.NO_THREAT = Action.MONITOR := by
  simp only [optimal_policy, utilities_val]
  decide

/-- C4: for every `(action, state)` pair of the transition table, the
next-state probabilities sum to 1 within `1e-6` (they sum to exactly 1). -/
theorem C4_transition_rows_sum_to_one :
    ∀ (a : Action) (s : State),
      pyAbs (((transition_probs a s).map Prod.snd).sum - 1) ≤ 1/1000000 := by
  decide

/-- C5: the network evidence `{source_ip: "203.0.113.5", packet_count: 900,
protocol: "UDP"}` classifies to `ATTACK`. -/
theorem C5_external_udp_flood_is_attack :
    determine_current_state
      { source_ip := some "203.0.113.5", packet_count := some 900,
        protocol := some "UDP", username := none, successful := none,
        timestamp := none } = State.ATTACK := by
  decide

end CyberMDP

namespace CyberMDP

set_option maxRecDepth 100000 in
/-- C2: for every state, the confidence score computed for the
policy-recommended action of that state lies in the closed interval
`[0.5, 1.0]`. -/
theorem C2_confidence_in_half_one :
    ∀ s : State,
      1/2 ≤ calculate_confidence s (optimal_policy s) ∧
      calculate_confidence s (optimal_policy s) ≤ 1 := by
  intro s
  cases s <;>
    · simp only [calculate_confidence, optimal_policy, utilities_val]
      decide

/-- C6: an event whose attributes match neither the network-evidence shape
(`protocol` and `packet_count` keys) nor the login-evidence shape
(`username` and `successful` keys) classifies to the conservative default
`SUSPICIOUS`. -/
theorem C6_unclassifiable_defaults_to_suspicious :
    ∀ event_data : EventData,
      ¬(event_data.protocol.isSome ∧ event_data.packet_count.isSome) →
      ¬(event_data.username.isSome ∧ event_data.successful.isSome) →
      determine_current_state event_data = State.SUSPICIOUS := by
  intro event_data h1 h2
  simp only [determine_current_state, if_neg h1, if_neg h2]

/-- Witness for C6 at a concrete keyless event. -/
theorem C6_witness :
    determine_current_state
      { source_ip := none, packet_count := none, protocol := none,
        username := none, successful := none, timestamp := none } =
      State.SUSPICIOUS :=
  C6_unclassifiable_defaults_to_suspicious
    { source_ip := none, packet_count := none, protocol := none,
      username := none, successful := none, timestamp := none }
    (by decide) (by decide)

/-- C9: the evidence classifier only ever returns `NO_THREAT`,
`SUSPICIOUS` or `ATTACK`; it never returns `COMPROMISED`. -/
theorem C9_classifier_never_compromised :
    ∀ event_data : EventData, determine_current_state event_data ≠ State.COMPROMISED := by
  intro event_data
  simp only [determine_current_state]
  split_ifs <;> simp

end CyberMDP

namespace PyStore

/-- After `store d category x`, `retrieve_latest` on that category returns
`x`: the appended element is the last one, and `l[-1:]` keeps exactly it. -/
theorem retrieve_latest_store {α : Type} (d : Storage α) (category : String) (x : α) :
    retrieve_latest (store d category x) category = some x := by
  unfold retrieve_latest retrieve store
  simp only [if_pos rfl]
  have hdrop : ((d category).getD [] ++ [x]).drop
      (((d category).getD [] ++ [x]).length - 1) = [x] := by
    rw [List.length_append, List.length_singleton, Nat.add_sub_cancel,
      List.drop_append_of_le_length (Nat.le_refl _), List.drop_length,
      List.nil_append]
  simp [hdrop]

/-- Result of `retrieve_latest` on a category with no records (absent key or empty
list) is `None`. -/
theorem retrieve_latest_empty {α : Type} (d : Storage α) (category : String)
    (h : d category = none ∨ d category = some []) :
    retrieve_latest d category = none := by
  rcases h with h | h <;> simp [retrieve_latest, retrieve, h]

end PyStore

/-- C10: `store` appends exactly one record at the end of the stored
category, leaves every other category unchanged, `retrieve_latest`
immediately afterwards returns the stored record, and `retrieve_latest` on
a category with no records returns `None`. -/
theorem C10_store_append_retrieve_latest :
    ∀ (α : Type) (d : PyStore.Storage α) (category : String) (x : α),
      PyStore.store d category x category = some ((d category).getD [] ++ [x]) ∧
      (∀ c, c ≠ category → PyStore.store d category x c = d c) ∧
      PyStore.retrieve_latest (PyStore.store d category x) category = some x ∧
      ((d category = none ∨ d category = some []) →
        PyStore.retrieve_latest d category = none) := by
  intro α d category x
  refine ⟨by simp [PyStore.store], fun c hc => by simp [PyStore.store, hc],
    PyStore.retrieve_latest_store d category x,
    PyStore.retrieve_latest_empty d category⟩

/-- Witness for C10 on the freshly initialized storage. -/
theorem C10_witness :
    PyStore.store (PyStore.initStorage ℕ) "mdp_decision" 7 "login_analysis" =
      PyStore.initStorage ℕ "login_analysis" ∧
    PyStore.retrieve_latest (PyStore.store (PyStore.initStorage ℕ) "mdp_decision" 7)
      "mdp_decision" = some 7 ∧
    PyStore.retrieve_latest (PyStore.initStorage ℕ) "mdp_decision" = none := by
  obtain ⟨h1, h2, h3, h4⟩ :=
    C10_store_append_retrieve_latest ℕ (PyStore.initStorage ℕ) "mdp_decision" 7
  exact ⟨h2 "login_analysis" (by decide), h3, h4 (Or.inr (by decide))⟩

namespace CyberMDP

/-- C7: two `analyze_event` calls with identical event type and event data
against the unchanged policy and utilities produce decision records with
identical recommended action and identical confidence, whatever the
storage already contains and whatever the two timestamps are. -/
theorem C7_analyze_event_deterministic :
    ∀ (σ : PyStore.Storage DecisionRecord) (event_type : String)
      (event_data : EventData) (t₁ t₂ : ℚ),
      ∃ r₁ r₂ : DecisionRecord,
        PyStore.retrieve_latest (analyze_event σ event_type event_data t₁).2
          "mdp_decision" = some r₁ ∧
        PyStore.retrieve_latest
          (analyze_event (analyze_event σ event_type event_data t₁).2
            event_type event_data t₂).2 "mdp_decision" = some r₂ ∧
        r₁.recommended_action = r₂.recommended_action ∧
        r₁.confidence = r₂.confidence := by
  intro σ event_type event_data t₁ t₂
  exact ⟨_, _, PyStore.retrieve_latest_store _ _ _,
    PyStore.retrieve_latest_store _ _ _, rfl, rfl⟩

end CyberMDP

/-- C8: for every login-attempt input, `analyze_login_attempt` returns a
risk probability in `[0, 1]`. -/
theorem C8_login_risk_in_unit_interval :
    ∀ login_data : BayesIDS.LoginData,
      0 ≤ BayesIDS.analyze_login_attempt login_data ∧
      BayesIDS.analyze_login_attempt login_data ≤ 1 := by
  intro login_data
  simp only [BayesIDS.analyze_login_attempt]
  split_ifs <;> decide

namespace CyberMDP

/-- An absent `(action, state)` pair makes the generalized expected-utility
computation raise `KeyError`. -/
theorem expectedUtilityG_none {T : TransTable} {U : UtilVec} {s : State} {a : Action}
    (h : T a s = none) :
    expectedUtilityG T U s a = Except.error PyError.keyError := by
  simp [expectedUtilityG, h]

/-- The generalized expected-utility computation either succeeds or raises
`KeyError`; no other exception arises. -/
theorem expectedUtilityG_shape (T : TransTable) (U : UtilVec) (s : State) (a : Action) :
    (∃ q, expectedUtilityG T U s a = Except.ok q) ∨
    expectedUtilityG T U s a = Except.error PyError.keyError := by
  unfold expectedUtilityG
  cases T a s with
  | none => right; rfl
  | some d => left; exact ⟨_, rfl⟩

/-- The `action_values` loop either succeeds or raises `KeyError`. -/
theorem actionValuesG_shape (T : TransTable) (U : UtilVec) (s : State) (l : List Action) :
    (∃ v, actionValuesG T U s l = Except.ok v) ∨
    actionValuesG T U s l = Except.error PyError.keyError := by
  induction l with
  | nil => left; exact ⟨[], rfl⟩
  | cons a rest ih =>
    rcases expectedUtilityG_shape T U s a with ⟨q, hq⟩ | hq
    · rcases ih with ⟨v, hv⟩ | hv
      · left; exact ⟨(a, q) :: v, by simp [actionValuesG, hq, hv]⟩
      · right; simp [actionValuesG, hq, hv]
    · right; simp [actionValuesG, hq]

/-- If some visited action has no transition distribution for `s`, the
`action_values` loop raises `KeyError`. -/
theorem actionValuesG_none {T : TransTable} {U : UtilVec} {s : State} {a : Action}
    {l : List Action} (ha : a ∈ l) (h : T a s = none) :
    actionValuesG T U s l = Except.error PyError.keyError := by
  induction l with
  | nil => cases ha
  | cons b rest ih =>
    rcases List.mem_cons.mp ha with rfl | hmem
    · simp [actionValuesG, expectedUtilityG_none h]
    · rcases expectedUtilityG_shape T U s b with ⟨q, hq⟩ | hq
      · simp [actionValuesG, hq, ih hmem]
      · simp [actionValuesG, hq]

/-- Every action is visited by the `for action in Action` loop. -/
theorem mem_allActions (a : Action) : a ∈ allActions := by
  cases a <;> simp [allActions]

/-- One missing pair for state `s` makes the sweep's state value raise
`KeyError`. -/
theorem stateValueG_none {T : TransTable} {U : UtilVec} {s : State} {a : Action}
    (h : T a s = none) :
    stateValueG T U s = Except.error PyError.keyError := by
  simp [stateValueG, actionValuesG_none (mem_allActions a) h]

/-- The sweep's state value either succeeds or raises `KeyError`. -/
theorem stateValueG_shape (T : TransTable) (U : UtilVec) (s : State) :
    (∃ q, stateValueG T U s = Except.ok q) ∨
    stateValueG T U s = Except.error PyError.keyError := by
  unfold stateValueG
  rcases actionValuesG_shape T U s allActions with ⟨v, hv⟩ | hv
  · cases v with
    | nil => left; rw [hv]; exact ⟨0, rfl⟩
    | cons p rest => left; rw [hv]; exact ⟨_, rfl⟩
  · right; simp [hv]

/-- A missing `(a, s)` pair makes the whole sweep raise `KeyError`,
whichever state it belongs to. -/
theorem sweepG_none {T : TransTable} {U : UtilVec} {s : State} {a : Action}
    (h : T a s = none) :
    sweepG T U = Except.error PyError.keyError := by
  have hs := stateValueG_none (U := U) h
  unfold sweepG
  cases s with
  | NO_THREAT => simp [hs]
  | SUSPICIOUS =>
    rcases stateValueG_shape T U .NO_THREAT with ⟨q1, h1⟩ | h1 <;> simp [h1, hs]
  | ATTACK =>
    rcases stateValueG_shape T U .NO_THREAT with ⟨q1, h1⟩ | h1 <;>
      rcases stateValueG_shape T U .SUSPICIOUS with ⟨q2, h2⟩ | h2 <;>
        simp [h1, h2, hs]
  | COMPROMISED =>
    rcases stateValueG_shape T U .NO_THREAT with ⟨q1, h1⟩ | h1 <;>
      rcases stateValueG_shape T U .SUSPICIOUS with ⟨q2, h2⟩ | h2 <;>
        rcases stateValueG_shape T U .ATTACK with ⟨q3, h3⟩ | h3 <;>
          simp [h1, h2, h3, hs]

/-- A missing pair makes bounded value iteration raise `KeyError` already
in its first sweep. -/
theorem valueIterationG_none {T : TransTable} {U : UtilVec} {s : State} {a : Action}
    (h : T a s = none) (n : Nat) :
    valueIterationG T (Nat.succ n) U = Except.error PyError.keyError := by
  simp [valueIterationG, sweepG_none (U := U) h]

/-- C3 (amended): a missing `(action, state)` transition distribution makes
`_compute_optimal_policy` fail with Python's `KeyError` — not with a
`ConfigurationError`, which the code never defines — so missing pairs are
not silently treated as zero-probability self-loops. -/
theorem C3_missing_pair_raises_keyerror :
    ∀ (T : TransTable) (a : Action) (s : State), T a s = none →
      computeOptimalPolicyG T = Except.error PyError.keyError := by
  intro T a s h
  unfold computeOptimalPolicyG
  rw [show max_iterations = Nat.succ 99 from rfl, valueIterationG_none h 99]

/-- Witness for the amended C3 at the concrete defective table. -/
theorem C3_witness :
    missingPairTable Action.MONITOR State.NO_THREAT = none ∧
    computeOptimalPolicyG missingPairTable = Except.error PyError.keyError :=
  ⟨rfl, C3_missing_pair_raises_keyerror missingPairTable Action.MONITOR State.NO_THREAT rfl⟩

/-- Counterexample to C3 as stated: on the table lacking the
`(MONITOR, NO_THREAT)` distribution, solving fails with `KeyError`, not
with the `ConfigurationError` the claim requires. -/
theorem C3_counterexample :
    missingPairTable Action.MONITOR State.NO_THREAT = none ∧
    computeOptimalPolicyG missingPairTable = Except.error PyError.keyError ∧
    computeOptimalPolicyG missingPairTable ≠ Except.error PyError.configurationError := by
  have h : computeOptimalPolicyG missingPairTable = Except.error PyError.keyError := by
    unfold computeOptimalPolicyG
    rw [show max_iterations = Nat.succ 99 from rfl,
      valueIterationG_none (a := Action.MONITOR) (s := State.NO_THREAT) rfl 99]
  exact ⟨rfl, h, by rw [h]; simp⟩

end CyberMDP
